import Mathlib

/-!
Verification of the cross-realm trust plugin (ipalib/plugins/trust.py) and the
directory upgrade orchestrator (ipaserver/install/upgradeinstance.py).

The Python sources are shallowly embedded: dictionaries of optional CLI options
become structures of `Option` fields, Python truthiness is made explicit, the
external capabilities (samba/dcerpc bindings, pysss_murmur, pysss_nss_idmap,
LDAP backends) become explicit environment records, and exception control flow
becomes `Except`.  Persistent mutations (joins, range creation, trust writes)
are collected as an explicit effect trace.
-/

/-! ## Python-semantics helpers -/

/-- Truthiness of an optional integer option: Python treats a missing key and a
value of `0` both as false. -/
def pyTruthyInt : Option Int → Bool
  | none => false
  | some n => n != 0

/-- Truthiness of an optional string option: Python treats a missing key and an
empty string both as false. -/
def pyTruthyStr : Option String → Bool
  | none => false
  | some s => s != ""

/-- ASCII uppercase of one character (Python `str.upper` on realm names). -/
def pyCharUpper (c : Char) : Char :=
  if 97 ≤ c.toNat && c.toNat ≤ 122 then Char.ofNat (c.toNat - 32) else c

/-- ASCII lowercase of one character (Python `str.lower` on realm names). -/
def pyCharLower (c : Char) : Char :=
  if 65 ≤ c.toNat && c.toNat ≤ 90 then Char.ofNat (c.toNat + 32) else c

/-- Python `s.upper()` (realm names are ASCII). -/
def pyUpper (s : String) : String := ⟨s.data.map pyCharUpper⟩

/-- Python `s.lower()` (realm names are ASCII). -/
def pyLower (s : String) : String := ⟨s.data.map pyCharLower⟩

/-- Splitting helper for Python `s.split(sep)` with a one-character
separator. -/
def pySplitAux (sep : Char) : List Char → List Char → List (List Char)
  | [], acc => [acc.reverse]
  | c :: cs, acc =>
    if c = sep then acc.reverse :: pySplitAux sep cs []
    else pySplitAux sep cs (c :: acc)

/-- Python `s.split(sep)` with a one-character separator. -/
def pySplit (s : String) (sep : Char) : List String :=
  (pySplitAux sep s.data []).map (fun l => ⟨l⟩)

/-- Digit accumulator for Python `int()`. -/
def pyDigitsAcc : List Char → Nat → Option Nat
  | [], acc => some acc
  | c :: cs, acc =>
    if c.isDigit then pyDigitsAcc cs (acc * 10 + (c.toNat - 48)) else none

/-- Nonempty digit run for Python `int()`. -/
def pyDigits : List Char → Option Nat
  | [] => none
  | l => pyDigitsAcc l 0

/-- Python `int()` on an LDAP string value; a non-numeric value raises
(modelled as `none`). -/
def pyInt (s : String) : Option Int :=
  match s.data with
  | '-' :: cs => (pyDigits cs).map (fun n => -(n : Int))
  | '+' :: cs => (pyDigits cs).map (fun n => (n : Int))
  | l => (pyDigits l).map (fun n => (n : Int))

/-- Python `lst[0]` on an LDAP value list; the empty-list case is folded into
the parse failure of `pyInt`. -/
def pyHead (l : List String) : String := l.headD ""

/-- Python 2 lexicographic comparison of two string lists (used by `max` on
multi-valued LDAP attributes). -/
def pyListLt : List String → List String → Bool
  | [], [] => false
  | [], _ :: _ => true
  | _ :: _, [] => false
  | a :: as, b :: bs =>
    match compare a b with
    | .lt => true
    | .gt => false
    | .eq => pyListLt as bs

/-- Python 2 `max(list, maybe_list)`: `None` compares below every list, and
`max` keeps the first argument on ties. -/
def pyMaxList (a : List String) (b : Option (List String)) : List String :=
  match b with
  | none => a
  | some bs => if pyListLt a bs then bs else a

/-! ## MurmurHash3 (x86, 32-bit)

Modelled from the spec: the external `pysss_murmur` capability, a stable
murmur-family non-cryptographic hash.  All arithmetic is `Nat` reduced
modulo `2^32`. -/

def MOD32 : Nat := 4294967296

def rotl32 (x r : Nat) : Nat :=
  ((x <<< r) % MOD32) ||| (x >>> (32 - r))

def murmurMixK (k : Nat) : Nat :=
  let k1 := (k * 3432918353) % MOD32
  let k2 := rotl32 k1 15
  (k2 * 461845907) % MOD32

def murmurBody : List Nat → Nat → Nat
  | b0 :: b1 :: b2 :: b3 :: rest, h =>
    let k := (b0 + b1 * 256 + b2 * 65536 + b3 * 16777216) % MOD32
    let h1 := h ^^^ murmurMixK k
    let h2 := rotl32 h1 13
    let h3 := (h2 * 5 + 3864292196) % MOD32
    murmurBody rest h3
  | tail, h =>
    match tail with
    | [] => h
    | bs => h ^^^ murmurMixK ((bs.foldr (fun b acc => acc * 256 + b) 0) % MOD32)

def murmurFinalize (h : Nat) : Nat :=
  let h1 := h ^^^ (h >>> 16)
  let h2 := (h1 * 2246822507) % MOD32
  let h3 := h2 ^^^ (h2 >>> 13)
  let h4 := (h3 * 3266489909) % MOD32
  h4 ^^^ (h4 >>> 16)

/-- Modelled from the spec: `pysss_murmur.murmurhash3(key, len(key), seed)`.
SIDs are ASCII, so bytes are taken as the character codes. -/
def murmurhash3 (key : String) (seed : Nat) : Nat :=
  let bytes := key.data.map Char.toNat
  let h := murmurBody bytes (seed % MOD32)
  murmurFinalize ((h ^^^ bytes.length) % MOD32)

/-- The seed `0xdeadbeef` used by `trust_add.add_range`. -/
def MURMUR_SEED : Nat := 3735928559

/-! ## Trust plugin: data model -/

def DEFAULT_RANGE_SIZE : Int := 200000

/-- Error taxonomy of the trust plugin, one constructor per distinct raise
site that the embedded code can reach. -/
inductive TrustErr where
  /-- `errors.NotFound`: samba 4 support (dcerpc bindings) missing. -/
  | notFoundSamba
  /-- `errors.ValidationError`: pysss_murmur missing and no base-id given. -/
  | missingBaseId
  /-- `errors.RequirementError`: trust type option missing. -/
  | trustTypeRequired
  /-- `errors.ValidationError`: only "ad" is supported. -/
  | trustTypeUnsupported
  /-- `errors.NotFound`: ipa-adtrust-install has not been run. -/
  | notFoundNotConfigured
  /-- `errors.ValidationError`: admin realm differs from the trusted domain. -/
  | realmMismatch
  /-- `errors.ValidationError`: admin given without a password. -/
  | passwordRequired
  /-- `errors.ValidationError`: base-id/range-size given but a range exists. -/
  | idRangeExists
  /-- `errors.ValidationError`: existing range has a different domain SID. -/
  | sidMismatch
  /-- `errors.ValidationError`: existing range has a different range type. -/
  | rangeTypeConflict
  /-- exception escaping `populate_remote_domain` (external capability). -/
  | populateFailed
  /-- `errors.NotFound` in `add_range`: domain validator not configured. -/
  | notFoundValidator
  /-- `int()`/indexing failure on discovered msSFU30 attribute values. -/
  | discoveryParseError
  /-- `NameError`: murmur derivation reached with pysss_murmur missing. -/
  | murmurUnavailable
  /-- enriched `errors.NotFound`: no domain controller resolvable. -/
  | notFoundDC (realm : String) (instructions : List String)
  /-- `errors.ValidationError`: no write permission to the AD. -/
  | insufficientPermission
  /-- `errors.ValidationError`: neither credentials nor shared secret. -/
  | insufficientArguments
  /-- `handle_not_found`: the single NotFound for an absent trust entry. -/
  | notFoundEntry (realm : String)
  /-- `errors.ValidationError` scoped to a blacklist attribute: bad SID. -/
  | invalidSid (attr value : String)
  /-- `IndexError`: no trust entry found after a successful join. -/
  | indexError
deriving DecidableEq

/-- Which errors are `errors.ValidationError` in the source. -/
def TrustErr.isValidationError : TrustErr → Bool
  | .missingBaseId | .trustTypeUnsupported | .realmMismatch | .passwordRequired
  | .idRangeExists | .sidMismatch | .rangeTypeConflict
  | .insufficientPermission | .insufficientArguments
  | .invalidSid _ _ => true
  | _ => false

/-- A trust entry as stored in LDAP (the attributes the embedded code reads). -/
structure TrustEntry where
  ipanttrusttype : Int
  ipanttrustdirection : Int
  ipantflatname : String
  ipanttrusteddomainsid : String
deriving DecidableEq

/-- The raw `idrange_show` result attributes read by `validate_range`. -/
structure OldRange where
  ipanttrusteddomainsid : String
  iparangetype : String
deriving DecidableEq

/-- `trustinstance.remote_domain.info` as populated by
`populate_remote_domain`. -/
structure RemoteInfo where
  sid : String
  dns_domain : String
deriving DecidableEq

/-- The msSFU30DomainInfo entry discovered in the AD by `add_range`. -/
structure MsSFUInfo where
  msSFU30MaxUidNumber : Option (List String)
  msSFU30MaxGidNumber : Option (List String)
  msSFU30OrderNumber : Option (List String)
deriving DecidableEq

/-- The parameters passed to `idrange_add` by `add_range`. -/
structure RangeParams where
  ipabaseid : Int
  ipaidrangesize : Int
  ipabaserid : Int
  iparangetype : String
  ipanttrusteddomainsid : String
deriving DecidableEq

/-- Outcome of the external `join_ad_full_credentials` call. -/
inductive JoinFullOutcome where
  /-- `errors.NotFound`: domain controller not resolvable. -/
  | notFound
  /-- the call returned `None`: no write permission. -/
  | nullResult
  /-- a join result with its `verified` flag. -/
  | okResult (verified : Bool)
deriving DecidableEq

structure JoinResult where
  verified : Bool
deriving DecidableEq

/-- Modelled from the spec: the external DomainJoiner capability
(`ipaserver.dcerpc`, not part of the sources).  A half-credential join
performs only the local side of the join and yields `verified=false`
pending confirmation by the remote administrator. -/
def join_ad_ipa_half (_realm : String) (_server : Option String)
    (_secret : String) : JoinResult :=
  { verified := false }

/-- The options dictionary of `trust_add` (internal parameter names; a `none`
field is a key absent from the dictionary). -/
structure TrustAddOptions where
  trust_type : Option String
  realm_admin : Option String
  realm_passwd : Option String
  realm_server : Option String
  trust_secret : Option String
  base_id : Option Int
  range_size : Option Int
  range_type : Option String

/-- The environment of one `trust_add` invocation: module-level capability
flags plus the external directory/domain state it reads. -/
structure TrustAddEnv where
  /-- `_bindings_installed` (ipaserver.dcerpc importable). -/
  bindingsInstalled : Bool
  /-- `_murmur_installed` (pysss_murmur importable). -/
  murmurInstalled : Bool
  /-- `TrustDomainJoins(api).configured`. -/
  trustConfigured : Bool
  /-- `idrange_show name raw=True`: the existing range for a range name. -/
  idrangeShow : String → Option OldRange
  /-- result of `populate_remote_domain`; `none` means the call raised. -/
  remoteInfo : Option RemoteInfo
  /-- `DomainValidator(api).is_configured()`. -/
  validatorConfigured : Bool
  /-- `search_in_dc` result at retry attempt `i` (replication may lag). -/
  discover : Nat → Option MsSFUInfo
  /-- outcome of `join_ad_full_credentials`. -/
  joinFullOutcome : JoinFullOutcome
  /-- `dns_container_exists`. -/
  dnsContainerExists : Bool
  /-- `dnszone_show` for the realm: `none` is NotFound/KeyError, otherwise
  the optional `idnsforwardpolicy` value. -/
  dnszoneShow : Option (Option String)
  /-- the per-trust-type sub-containers under cn=trusts. -/
  trustShowContainers : String → String → Option TrustEntry
  /-- `ldap.find_entries` over the cn=trusts subtree for `cn=<value>`. -/
  findTrusts : String → List TrustEntry

/-- `trust_add.validate_options` (trust.py lines 334-401): the precondition
cascade, returning `full_join` on success. -/
def validate_options (env : TrustAddEnv) (opts : TrustAddOptions)
    (realm : String) : Except TrustErr Bool :=
  if !env.bindingsInstalled then
    .error .notFoundSamba
  else if !env.murmurInstalled && opts.base_id.isNone then
    .error .missingBaseId
  else if opts.trust_type.isNone then
    .error .trustTypeRequired
  else if opts.trust_type != some "ad" then
    .error .trustTypeUnsupported
  else if !env.trustConfigured then
    .error .notFoundNotConfigured
  else if pyTruthyStr opts.realm_admin then
    let names := pySplit (opts.realm_admin.getD "") '@'
    if names.length > 1 && (pyLower realm != pyLower (names.getLastD "")) then
      .error .realmMismatch
    else if !pyTruthyStr opts.realm_passwd then
      .error .passwordRequired
    else
      .ok true
  else
    .ok false

/-- One probe of the discovery retry loop chain: try attempts `i`, `i+1`, ...
while `fuel` lasts, returning the first hit (`for retry in range(10)` with a
2-second sleep between attempts). -/
def discoverLoop (f : Nat → Option MsSFUInfo) (i : Nat) : Nat → Option MsSFUInfo
  | 0 => none
  | fuel + 1 =>
    match f i with
    | some info => some info
    | none => discoverLoop f (i + 1) fuel

/-- The discovery retry loop of `trust_add.add_range`: up to 10 attempts. -/
def discoverInfo (f : Nat → Option MsSFUInfo) : Option MsSFUInfo :=
  discoverLoop f 0 10

/-- `trust_add.validate_range` (trust.py lines 403-469).  Note the source
tests `options.get('type')`, but the option key is `trust_type`, so the
ad-specific range-type restriction branch is dead code and is not embedded. -/
def validate_range (env : TrustAddEnv) (opts : TrustAddOptions)
    (realm : String) : Except TrustErr (Option OldRange × String × String) :=
  let range_name := pyUpper realm ++ "_id_range"
  let old_range := env.idrangeShow range_name
  if old_range.isSome && (pyTruthyInt opts.base_id || pyTruthyInt opts.range_size) then
    .error .idRangeExists
  else
    match env.remoteInfo with
    | none => .error .populateFailed
    | some info =>
      match old_range with
      | some o =>
        if o.ipanttrusteddomainsid != info.sid then
          .error .sidMismatch
        else if pyTruthyStr opts.range_type && (opts.range_type != some o.iparangetype) then
          .error .rangeTypeConflict
        else
          .ok (old_range, range_name, info.sid)
      | none => .ok (none, range_name, info.sid)

/-- The AD discovery section of `trust_add.add_range` (trust.py lines
487-544): skipped when a range type other than ipa-ad-trust-posix is
enforced; yields the discovered (range_type, base_id, range_size). -/
def sfu_discovery (env : TrustAddEnv) (opts : TrustAddOptions) :
    Except TrustErr (Option String × Option Int × Option Int) :=
  if opts.range_type.isNone || opts.range_type == some "ipa-ad-trust-posix" then
    if !env.validatorConfigured then
      .error .notFoundValidator
    else
      match discoverInfo env.discover with
      | none => .ok (none, none, none)
      | some info =>
        if info.msSFU30MaxUidNumber.isSome && info.msSFU30OrderNumber.isSome then
          match pyInt (pyHead (pyMaxList (info.msSFU30MaxUidNumber.getD [])
                                         info.msSFU30MaxGidNumber)),
                pyInt (pyHead (info.msSFU30OrderNumber.getD [])) with
          | some max_id, some b =>
            .ok (some "ipa-ad-trust-posix", some b,
                 some ((1 + Int.fdiv (max_id - b) DEFAULT_RANGE_SIZE) * DEFAULT_RANGE_SIZE))
          | _, _ => .error .discoveryParseError
        else .ok (none, none, none)
  else .ok (none, none, none)

/-- `trust_add.add_range` (trust.py lines 471-574): discovery, then explicit
CLI options take precedence, then defaults (murmur-derived base id, size
200000, type ipa-ad-trust); returns the `idrange_add` parameters. -/
def add_range (env : TrustAddEnv) (opts : TrustAddOptions)
    (_range_name dom_sid _realm : String) : Except TrustErr RangeParams :=
  match sfu_discovery env opts with
  | .error e => .error e
  | .ok (dt, db, ds) =>
    let range_type :=
      if pyTruthyStr opts.range_type then opts.range_type.getD ""
      else if !pyTruthyStr dt then "ipa-ad-trust"
      else dt.getD ""
    let range_size :=
      if pyTruthyInt opts.range_size then opts.range_size.getD 0
      else if !pyTruthyInt ds then DEFAULT_RANGE_SIZE
      else ds.getD 0
    if pyTruthyInt opts.base_id then
      .ok { ipabaseid := opts.base_id.getD 0, ipaidrangesize := range_size,
            ipabaserid := 0, iparangetype := range_type,
            ipanttrusteddomainsid := dom_sid }
    else if pyTruthyInt db then
      .ok { ipabaseid := db.getD 0, ipaidrangesize := range_size,
            ipabaserid := 0, iparangetype := range_type,
            ipanttrusteddomainsid := dom_sid }
    else if !env.murmurInstalled then
      .error .murmurUnavailable
    else
      .ok { ipabaseid := DEFAULT_RANGE_SIZE +
              Int.ofNat (murmurhash3 dom_sid MURMUR_SEED % 10000) * DEFAULT_RANGE_SIZE,
            ipaidrangesize := range_size, ipabaserid := 0,
            iparangetype := range_type, ipanttrusteddomainsid := dom_sid }

/-! ## Trust repository: show / delete / modify -/

/-- `trust.trust_types`: the supported per-type sub-containers, in probe
order. -/
def trust_types : List String := ["ad", "ipa"]

/-- The probe loop of `trust_show.execute`: try each sub-container; a raised
NotFound is remembered in `error`; a found entry breaks the loop. -/
def trust_show_probe (containers : String → String → Option TrustEntry)
    (realm : String) :
    List String → Option TrustErr → Option TrustEntry × Option TrustErr
  | [], err => (none, err)
  | t :: rest, err =>
    match containers t realm with
    | some e => (some e, err)
    | none => trust_show_probe containers realm rest (some (.notFoundEntry realm))

/-- `trust_show.execute` (trust.py lines 721-736): probe every trust-type
sub-container; afterwards `if error or not result: handle_not_found`. -/
def trust_show_execute (containers : String → String → Option TrustEntry)
    (realm : String) : Except TrustErr TrustEntry :=
  match trust_show_probe containers realm trust_types none with
  | (some e, none) => .ok e
  | (_, some _) => .error (.notFoundEntry realm)
  | (none, _) => .error (.notFoundEntry realm)

/-- `trust_del.pre_callback` (trust.py lines 655-661): locate the trust via
`trust_show`; a NotFound becomes the single `handle_not_found`. -/
def trust_del_pre_callback (containers : String → String → Option TrustEntry)
    (realm : String) : Except TrustErr TrustEntry :=
  match trust_show_execute containers realm with
  | .error _ => .error (.notFoundEntry realm)
  | .ok e => .ok e

/-- The incoming/outgoing SID blacklist attributes of a modify request. -/
structure BlacklistAttrs where
  ipantsidblacklistincoming : Option (List String)
  ipantsidblacklistoutgoing : Option (List String)

/-- One attribute pass of `trust.validate_sid_blacklists`: skip a missing or
empty value list, otherwise reject the first structurally invalid SID with an
error scoped to the attribute. -/
def check_blacklist_attr (isSidValid : String → Bool) (attr : String)
    (values : Option (List String)) : Except TrustErr Unit :=
  match values with
  | none => .ok ()
  | some vs =>
    if vs.isEmpty then .ok ()
    else
      match vs.find? (fun v => !isSidValid v) with
      | some v => .error (.invalidSid attr v)
      | none => .ok ()

/-- `trust.validate_sid_blacklists` (trust.py lines 229-242): a no-op when
the dcerpc SID validator is unavailable. -/
def validate_sid_blacklists (bindingsInstalled : Bool)
    (isSidValid : String → Bool) (ea : BlacklistAttrs) : Except TrustErr Unit :=
  if !bindingsInstalled then .ok ()
  else
    match check_blacklist_attr isSidValid "ipantsidblacklistincoming"
            ea.ipantsidblacklistincoming with
    | .error e => .error e
    | .ok _ =>
      check_blacklist_attr isSidValid "ipantsidblacklistoutgoing"
        ea.ipantsidblacklistoutgoing

/-- Persistent mutations performed by the trust commands. -/
inductive Effect where
  | joinFull (realm : String)
  | joinHalf (realm : String)
  | rangeAdd (name : String) (params : RangeParams)
  | modifyTrust (realm : String)
deriving DecidableEq

/-- Environment of `trust_mod`. -/
structure TrustModEnv where
  bindingsInstalled : Bool
  isSidValid : String → Bool
  containers : String → String → Option TrustEntry

/-- `trust_mod.pre_callback` followed by the LDAP write (trust.py lines
674-685): locate the trust, validate the blacklists, and only then write. -/
def trust_mod_execute (env : TrustModEnv) (realm : String)
    (ea : BlacklistAttrs) : Except TrustErr TrustEntry × List Effect :=
  match trust_show_execute env.containers realm with
  | .error _ => (.error (.notFoundEntry realm), [])
  | .ok e =>
    match validate_sid_blacklists env.bindingsInstalled env.isSidValid ea with
    | .error er => (.error er, [])
    | .ok _ => (.ok e, [Effect.modifyTrust realm])

/-! ## Display translation tables -/

/-- `trust_type_string` (trust.py lines 161-169). -/
def trust_type_string (level : Int) : String :=
  if level = 1 then "Non-Active Directory domain"
  else if level = 2 then "Active Directory domain"
  else if level = 3 then "RFC4120-compliant Kerberos realm"
  else "Unknown"

/-- `trust_direction_string` (trust.py lines 171-178). -/
def trust_direction_string (level : Int) : String :=
  if level = 1 then "Trusting forest"
  else if level = 2 then "Trusted forest"
  else if level = 3 then "Two-way trust"
  else "Unknown"

/-- `trust_status_string` (trust.py lines 180-182). -/
def trust_status_string (level : Bool) : String :=
  if level then "Established and verified"
  else "Waiting for confirmation by remote side"

/-! ## Trust negotiator: execute_ad and the full trust_add.execute -/

/-- The value/verified pair returned by `trust_add.execute_ad`. -/
structure ExecAdResult where
  value : String
  verified : Bool
  summary : String
deriving DecidableEq

/-- `trust_add.execute_ad` (trust.py lines 576-648): pick the summary by
probing `trust_show`, then either a full-credential join (with enriched DNS
diagnostics on a NotFound), or a half-credential join using the shared
secret, or fail for insufficient arguments. -/
def execute_ad (env : TrustAddEnv) (opts : TrustAddOptions) (full_join : Bool)
    (realm : String) (info : RemoteInfo) :
    Except TrustErr ExecAdResult × List Effect :=
  let summaryBase :=
    match trust_show_execute env.trustShowContainers realm with
    | .ok _ => "Re-established trust to domain "
    | .error _ => "Added Active Directory trust for realm "
  if full_join then
    match env.joinFullOutcome with
    | .notFound =>
      let instructions :=
        if env.dnsContainerExists then
          match env.dnszoneShow with
          | some fp =>
            if fp == some "only" then
              ["Forward policy is defined for it in IPA DNS, perhaps forwarder points to incorrect host?"]
            else []
          | none =>
            ["IPA manages DNS, please verify your DNS configuration and make sure that service records of the domain can be resolved."]
        else
          ["Since IPA does not manage DNS records, ensure DNS is configured to resolve the domain from IPA hosts and back."]
      (.error (.notFoundDC realm instructions), [])
    | .nullResult => (.error .insufficientPermission, [])
    | .okResult v =>
      (.ok { value := info.dns_domain, verified := v,
             summary := summaryBase ++ info.dns_domain },
       [Effect.joinFull realm])
  else if opts.trust_secret.isSome then
    let r := join_ad_ipa_half realm opts.realm_server (opts.trust_secret.getD "")
    (.ok { value := info.dns_domain, verified := r.verified,
           summary := summaryBase ++ info.dns_domain },
     [Effect.joinHalf realm])
  else
    (.error .insufficientArguments, [])

/-- The dictionary returned by `trust_add.execute` (the `verified` key is
deleted and replaced with the display `truststatus`). -/
structure TrustAddResult where
  value : String
  summary : String
  trusttype : String
  trustdirection : String
  truststatus : String
deriving DecidableEq

/-- `trust_add.execute` (trust.py lines 312-332): validate options, validate
the range, join, create the range when none existed, then read the stored
trust back and translate its display fields.  The second component collects
every persistent mutation performed. -/
def trust_add_execute (env : TrustAddEnv) (opts : TrustAddOptions)
    (realm : String) : Except TrustErr TrustAddResult × List Effect :=
  match validate_options env opts realm with
  | .error e => (.error e, [])
  | .ok full_join =>
    match validate_range env opts realm with
    | .error e => (.error e, [])
    | .ok (old_range, range_name, dom_sid) =>
      match env.remoteInfo with
      | none => (.error .populateFailed, [])
      | some info =>
        match execute_ad env opts full_join realm info with
        | (.error e, effs) => (.error e, effs)
        | (.ok adres, effs) =>
          let addRangeRes : Except TrustErr (List Effect) :=
            if old_range.isNone then
              match add_range env opts range_name dom_sid realm with
              | .error e => .error e
              | .ok params => .ok [Effect.rangeAdd range_name params]
            else .ok []
          match addRangeRes with
          | .error e => (.error e, effs)
          | .ok rangeEffs =>
            match (env.findTrusts adres.value).head? with
            | none => (.error .indexError, effs ++ rangeEffs)
            | some t =>
              (.ok { value := adres.value, summary := adres.summary,
                     trusttype := trust_type_string t.ipanttrusttype,
                     trustdirection := trust_direction_string t.ipanttrustdirection,
                     truststatus := trust_status_string adres.verified },
               effs ++ rangeEffs)

/-! ## SID resolver -/

/-- Modelled from the spec: the type constants of the external
`pysss_nss_idmap` capability (user, group, both; anything else displays as
unknown). -/
def idmap_type_string (level : Nat) : String :=
  if level = 1 then "user"
  else if level = 2 then "group"
  else if level = 3 then "both"
  else "unknown"

structure ResolveEntry where
  sid : String
  name : String
  type : String
deriving DecidableEq

/-- Environment of `trust_resolve`: the capability flag and the external
best-effort translation (modelled from the spec: `getnamebysid` returns
translations only for the SIDs it can resolve). -/
structure ResolveEnv where
  nssIdmapInstalled : Bool
  getnamebysid : String → Option (String × Nat)

/-- `trust_resolve.execute` (trust.py lines 947-963): an empty result when
the capability is absent; otherwise one entry per resolvable SID, with
unresolvable SIDs omitted (dict iteration is modelled in input order). -/
def trust_resolve_execute (env : ResolveEnv) (sids : List String) :
    List ResolveEntry :=
  if !env.nssIdmapInstalled then []
  else
    sids.filterMap (fun s =>
      match env.getnamebysid s with
      | none => none
      | some (n, t) => some { sid := s, name := n, type := idmap_type_string t })

/-! ## Directory upgrade orchestrator (upgradeinstance.py) -/

/-- The cn=config attributes touched during an upgrade (a `none` field is an
absent attribute; absence is distinct from an empty value). -/
structure DSEConfig where
  port : Option String
  security : Option String
  globalLock : Option String
  ldapiSearchBase : Option String
deriving DecidableEq

/-- The `backup_state` store: the recorded pre-upgrade value of each
attribute, `none` when nothing was recorded. -/
structure BackupState where
  port : Option String
  security : Option String
  globalLock : Option String
deriving DecidableEq

/-- The state threaded through one `IPAUpgrade` run. -/
structure UpState where
  config : DSEConfig
  backup : BackupState
  running : Bool
  modified : Bool
  fileSaved : Bool
deriving DecidableEq

inductive UpgErr where
  /-- `ldapupdate.BadSyntax`: fatal operator error, re-raised as is. -/
  | badSyntax
  /-- any other failure, wrapped in a RuntimeError and re-raised. -/
  | upgradeFailure
deriving DecidableEq

/-- Outcome of the external update-runner capability. -/
inductive UpgradeOutcome where
  | okRun (modified : Bool)
  | badSyntax
  | failure
deriving DecidableEq

/-- Environment of one upgrade run: the external schema updater and update
runner outcomes. -/
structure UpgradeEnv where
  schemaModified : Bool
  upgradeOutcome : UpgradeOutcome

/-- `IPAUpgrade.__stop_instance`. -/
def stop_instance_step (st : UpState) : UpState :=
  { st with running := false }

/-- `IPAUpgrade.__start`. -/
def start_step (st : UpState) : UpState :=
  { st with running := true }

/-- `IPAUpgrade.__save_config` (upgradeinstance.py lines 126-157): copy the
file aside and record each of port, security and global lock, when present
in cn=config. -/
def save_config_step (st : UpState) : UpState :=
  { st with fileSaved := true,
            backup := { port := st.config.port,
                        security := st.config.security,
                        globalLock := st.config.globalLock } }

/-- `IPAUpgrade.__disable_listeners` (lines 198-208): port to the sentinel 0,
TLS off, drop the LDAPI search-base override.  Modelled from the spec: the
`installutils.ModifyLDIF` editor (not in the sources) whose `replace_value`
sets an attribute and `remove_value` drops it. -/
def disable_listeners_step (st : UpState) : UpState :=
  { st with config :=
      { st.config with port := some "0", security := some "off", ldapiSearchBase := none } }

/-- `IPAUpgrade.__enable_ds_global_write_lock` (lines 159-169). -/
def enable_global_lock_step (st : UpState) : UpState :=
  { st with config := { st.config with globalLock := some "on" } }

/-- `IPAUpgrade.__update_schema` (lines 210-213): the modified flag is
OR-accumulated. -/
def update_schema_step (env : UpgradeEnv) (st : UpState) : UpState :=
  { st with modified := env.schemaModified || st.modified }

/-- `IPAUpgrade.__upgrade` (lines 215-228): BadSyntax is re-raised as is,
any other failure is wrapped; on success the modified flag is
OR-accumulated. -/
def upgrade_step (env : UpgradeEnv) (st : UpState) : Except UpgErr UpState :=
  match env.upgradeOutcome with
  | .okRun m => .ok { st with modified := m || st.modified }
  | .badSyntax => .error .badSyntax
  | .failure => .error .upgradeFailure

/-- `IPAUpgrade.__restore_config` (lines 171-196): reapply recorded port and
TLS values, clear the global write lock by default and re-add it only when a
pre-upgrade value was recorded. -/
def restore_config_step (st : UpState) : UpState :=
  let c1 := match st.backup.port with
            | some p => { st.config with port := some p }
            | none => st.config
  let c2 := match st.backup.security with
            | some s => { c1 with security := some s }
            | none => c1
  let c3 := { c2 with globalLock := none }
  let c4 := match st.backup.globalLock with
            | some g => { c3 with globalLock := some g }
            | none => c3
  { st with config := c4 }

/-- One orchestrator step: its action and its run_after_failure tag. -/
structure UpStep where
  action : UpState → Except UpgErr UpState
  runAfterFailure : Bool

/-- The step list built by `IPAUpgrade.create_instance` (lines 104-124):
only the stop-instance and restore-config tail steps carry
run_after_failure=True; the final conditional restart does not. -/
def create_instance_steps (env : UpgradeEnv) (dsRunning hasSchemaFiles : Bool) :
    List UpStep :=
  (if dsRunning then [⟨fun st => .ok (stop_instance_step st), false⟩] else []) ++
  [⟨fun st => .ok (save_config_step st), false⟩,
   ⟨fun st => .ok (disable_listeners_step st), false⟩,
   ⟨fun st => .ok (enable_global_lock_step st), false⟩,
   ⟨fun st => .ok (start_step st), false⟩] ++
  (if hasSchemaFiles then [⟨fun st => .ok (update_schema_step env st), false⟩] else []) ++
  [⟨fun st => upgrade_step env st, false⟩,
   ⟨fun st => .ok (stop_instance_step st), true⟩,
   ⟨fun st => .ok (restore_config_step st), true⟩] ++
  (if dsRunning then [⟨fun st => .ok (start_step st), false⟩] else [])

/-- Modelled from the spec: the tail pass of the staged executor
(`service.Service.start_creation`, not in the sources): after a failure,
only the remaining steps tagged run_after_failure execute. -/
def run_failure_tail : List UpStep → UpState → UpState
  | [], st => st
  | s :: rest, st =>
    if s.runAfterFailure then
      match s.action st with
      | .ok st2 => run_failure_tail rest st2
      | .error _ => run_failure_tail rest st
    else run_failure_tail rest st

/-- Modelled from the spec: the staged executor
(`service.Service.start_creation`, not in the sources): steps run in order;
once one fails, only the remaining run_after_failure steps execute and the
failure is re-raised. -/
def run_steps : List UpStep → UpState → Option UpgErr × UpState
  | [], st => (none, st)
  | s :: rest, st =>
    match s.action st with
    | .ok st2 => run_steps rest st2
    | .error e => (some e, run_failure_tail rest st)

/-- `IPAUpgrade.create_instance` followed by `start_creation`: the entry
state captures whether the directory server was running. -/
def ipa_upgrade_run (env : UpgradeEnv) (st : UpState) (hasSchemaFiles : Bool) :
    Option UpgErr × UpState :=
  run_steps (create_instance_steps env st.running hasSchemaFiles) st

/-! ## Concrete scenario data -/

/-- The remote domain discovered for realm ad.example.com. -/
def baseRemote : RemoteInfo :=
  { sid := "S-1-5-21-3502988750-125904550-3683905862",
    dns_domain := "ad.example.com" }

/-- A stored two-way AD trust entry. -/
def baseEntry : TrustEntry :=
  { ipanttrusttype := 2, ipanttrustdirection := 3, ipantflatname := "AD",
    ipanttrusteddomainsid := baseRemote.sid }

/-- A trust-add invocation using only a shared secret (no admin
credentials, no explicit range options). -/
def baseOpts : TrustAddOptions :=
  { trust_type := some "ad", realm_admin := none, realm_passwd := none,
    realm_server := none, trust_secret := some "Secret123", base_id := none,
    range_size := none, range_type := none }

/-- A fully provisioned server whose AD exposes no POSIX metadata and which
has no existing range. -/
def baseEnv : TrustAddEnv :=
  { bindingsInstalled := true, murmurInstalled := true, trustConfigured := true,
    idrangeShow := fun _ => none, remoteInfo := some baseRemote,
    validatorConfigured := true, discover := fun _ => none,
    joinFullOutcome := .okResult true, dnsContainerExists := false,
    dnszoneShow := none, trustShowContainers := fun _ _ => none,
    findTrusts := fun _ => [baseEntry] }

/-- The spec scenario: AD exposes `msSFU30MaxUidNumber=3000000` and
`msSFU30OrderNumber=2000000`. -/
def c1Info : MsSFUInfo :=
  { msSFU30MaxUidNumber := some ["3000000"], msSFU30MaxGidNumber := none,
    msSFU30OrderNumber := some ["2000000"] }

/-- `baseEnv` whose discovery succeeds with the spec scenario metadata. -/
def c1Env : TrustAddEnv := { baseEnv with discover := fun _ => some c1Info }

/-- An upgrade run whose update files contain a syntax error. -/
def c2Env : UpgradeEnv := { schemaModified := false, upgradeOutcome := .badSyntax }

/-- A running directory server with listeners up and no global write lock. -/
def c2State : UpState :=
  { config := { port := some "389", security := some "on", globalLock := none,
                ldapiSearchBase := some "cn=config" },
    backup := { port := none, security := none, globalLock := none },
    running := true, modified := false, fileSaved := false }

/-- An existing range recorded for ad.example.com under a different domain
SID. -/
def c3Old : OldRange :=
  { ipanttrusteddomainsid := "S-1-5-21-9-9-9", iparangetype := "ipa-ad-trust" }

/-- `baseEnv` with a conflicting pre-existing range for ad.example.com. -/
def c3Env : TrustAddEnv :=
  { baseEnv with idrangeShow :=
      fun n => if n == "AD.EXAMPLE.COM_id_range" then some c3Old else none }

/-- bindings available, murmur missing, own domain not yet provisioned. -/
def c4Env : TrustAddEnv :=
  { baseEnv with murmurInstalled := false, trustConfigured := false }

/-- trust-add options enforcing the non-POSIX range type (discovery is then
skipped). -/
def c5Opts : TrustAddOptions := { baseOpts with range_type := some "ipa-ad-trust" }

/-- A trust entry stored only under the cn=ipa sub-container. -/
def c6Entry : TrustEntry :=
  { ipanttrusttype := 3, ipanttrustdirection := 3, ipantflatname := "IPA",
    ipanttrusteddomainsid := "S-1-5-21-4-4-4" }

/-- Sub-containers holding the realm only under the second probed type. -/
def c6Containers : String → String → Option TrustEntry :=
  fun t realm =>
    if t == "ipa" && realm == "ad.example.com" then some c6Entry else none

/-- A modify environment with the SID validator available and the trust
present in the cn=ad sub-container. -/
def c7Env : TrustModEnv :=
  { bindingsInstalled := true,
    isSidValid := fun v => v == "S-1-5-21-1-2-3",
    containers := fun t realm =>
      if t == "ad" && realm == "ad.example.com" then some baseEntry else none }

/-- A blacklist update whose incoming list holds a malformed SID. -/
def c7Attrs : BlacklistAttrs :=
  { ipantsidblacklistincoming := some ["not-a-sid"],
    ipantsidblacklistoutgoing := none }

/-- A resolver environment that can translate exactly one SID. -/
def c9Env : ResolveEnv :=
  { nssIdmapInstalled := true,
    getnamebysid := fun s =>
      if s == "S-1-5-21-1-2-3-500" then some ("Administrator", 1) else none }

/-- An existing range recorded with the same SID as the rediscovered one. -/
def c10Old : OldRange :=
  { ipanttrusteddomainsid := baseRemote.sid, iparangetype := "ipa-ad-trust" }

/-- `baseEnv` with a matching pre-existing range for ad.example.com. -/
def c10Env : TrustAddEnv :=
  { baseEnv with idrangeShow :=
      fun n => if n == "AD.EXAMPLE.COM_id_range" then some c10Old else none }

/-- trust-add options passing explicit zeros for base id and range size. -/
def c10Opts : TrustAddOptions :=
  { baseOpts with base_id := some 0, range_size := some 0 }

/-! ## Claim theorems -/

/-- Claim C1 (counterexample): in the spec scenario (maxUidNumber=3000000,
orderNumber=2000000, no existing range) the allocated size is 1200000, not
the claimed ceil value 1000000: the source computes
`(1 + (max_id - base_id) / 200000) * 200000`, which adds a full extra block
when the span is an exact multiple of 200000. -/
theorem c1_posix_discovery_size_counterexample :
    add_range c1Env baseOpts "AD.EXAMPLE.COM_id_range" baseRemote.sid
      "ad.example.com" =
      .ok { ipabaseid := 2000000, ipaidrangesize := 1200000, ipabaserid := 0,
            iparangetype := "ipa-ad-trust-posix",
            ipanttrusteddomainsid := baseRemote.sid } ∧
    (1200000 : Int) ≠ 1000000 :=
  ⟨rfl, by decide⟩

/-- Claim C1 (amended): when discovery succeeds with both required
attributes present and no explicit range options are given, the allocated
range has type ipa-ad-trust-posix, baseId equal to the order number, and
rangeSize = (floor((maxId - baseId) / 200000) + 1) * 200000 where
maxId = max(maxUid, maxGid); in the example scenario the size is 1200000. -/
theorem c1_posix_discovery_amended
    (env : TrustAddEnv) (opts : TrustAddOptions) (rn ds rl : String)
    (info : MsSFUInfo) (u b : Int)
    (hrt : opts.range_type = none) (hrs : opts.range_size = none)
    (hbi : opts.base_id = none) (hval : env.validatorConfigured = true)
    (hdisc : discoverInfo env.discover = some info)
    (huid : info.msSFU30MaxUidNumber.isSome = true)
    (hord : info.msSFU30OrderNumber.isSome = true)
    (hu : pyInt (pyHead (pyMaxList (info.msSFU30MaxUidNumber.getD [])
            info.msSFU30MaxGidNumber)) = some u)
    (hb : pyInt (pyHead (info.msSFU30OrderNumber.getD [])) = some b)
    (hbne : b ≠ 0)
    (hsne : (1 + Int.fdiv (u - b) DEFAULT_RANGE_SIZE) * DEFAULT_RANGE_SIZE ≠ 0) :
    add_range env opts rn ds rl =
      .ok { ipabaseid := b,
            ipaidrangesize :=
              (1 + Int.fdiv (u - b) DEFAULT_RANGE_SIZE) * DEFAULT_RANGE_SIZE,
            ipabaserid := 0, iparangetype := "ipa-ad-trust-posix",
            ipanttrusteddomainsid := ds } := by
  simp [add_range, sfu_discovery, hrt, hrs, hbi, hval, hdisc, huid, hord,
        hu, hb, pyTruthyStr, pyTruthyInt, hbne, hsne]

/-- Claim C1 (witness for the amended theorem): the spec scenario evaluated
through the amended statement. -/
theorem c1_posix_discovery_amended_witness :
    add_range c1Env baseOpts "AD.EXAMPLE.COM_id_range" baseRemote.sid
      "ad.example.com" =
      .ok { ipabaseid := 2000000,
            ipaidrangesize :=
              (1 + Int.fdiv ((3000000 : Int) - 2000000) DEFAULT_RANGE_SIZE) *
                DEFAULT_RANGE_SIZE,
            ipabaserid := 0, iparangetype := "ipa-ad-trust-posix",
            ipanttrusteddomainsid := baseRemote.sid } :=
  c1_posix_discovery_amended c1Env baseOpts "AD.EXAMPLE.COM_id_range"
    baseRemote.sid "ad.example.com" c1Info 3000000 2000000
    rfl rfl rfl rfl rfl rfl rfl rfl rfl (by decide) (by decide)

/-- Claim C2 (counterexample): with the server running before the upgrade
and `Upgrade` raising BadSyntax, the final conditional restart does not
execute (it is not tagged run_after_failure), so the server is left
stopped, contradicting that the whole stated tail including the restart
still executes. -/
theorem c2_upgrade_badsyntax_counterexample :
    c2State.running = true ∧
    (ipa_upgrade_run c2Env c2State false).1 = some .badSyntax ∧
    (ipa_upgrade_run c2Env c2State false).2.running = false :=
  ⟨rfl, rfl, rfl⟩

/-- Claim C2 (amended): if `Upgrade` raises the fatal BadSyntax error, the
run_after_failure tail (stop instance, restore configuration) still
executes — but not the conditional restart, which is not tagged
run_after_failure — and the restored configuration's global-write-lock
state equals its pre-upgrade recorded value: removed by default, re-added
only when a pre-upgrade value was recorded. -/
theorem c2_upgrade_badsyntax_amended
    (env : UpgradeEnv) (st : UpState) (hasSchemaFiles : Bool)
    (hbad : env.upgradeOutcome = .badSyntax) :
    (ipa_upgrade_run env st hasSchemaFiles).1 = some .badSyntax ∧
    (ipa_upgrade_run env st hasSchemaFiles).2.running = false ∧
    (ipa_upgrade_run env st hasSchemaFiles).2.config.globalLock =
      st.config.globalLock := by
  obtain ⟨⟨p, sec, g, l⟩, bk, r, m, f⟩ := st
  cases r <;> cases hasSchemaFiles <;> cases p <;> cases sec <;> cases g <;>
    simp [ipa_upgrade_run, create_instance_steps, run_steps, run_failure_tail,
          stop_instance_step, start_step, save_config_step,
          disable_listeners_step, enable_global_lock_step, update_schema_step,
          upgrade_step, restore_config_step, hbad]

/-- Claim C2 (witness for the amended theorem): the amended statement
evaluated on a running server with schema files and a BadSyntax upgrade. -/
theorem c2_upgrade_badsyntax_amended_witness :
    (ipa_upgrade_run c2Env c2State true).1 = some .badSyntax ∧
    (ipa_upgrade_run c2Env c2State true).2.running = false ∧
    (ipa_upgrade_run c2Env c2State true).2.config.globalLock =
      c2State.config.globalLock :=
  c2_upgrade_badsyntax_amended c2Env c2State true rfl

/-- Claim C3: if an identifier range already exists for the realm and its
recorded domain SID differs from the newly discovered one, trust_add fails
with a validation error and performs no persistent mutation: no join, no
range creation, no modification. -/
theorem c3_sid_mismatch_no_mutation
    (env : TrustAddEnv) (opts : TrustAddOptions) (realm : String) (fj : Bool)
    (o : OldRange) (info : RemoteInfo)
    (hvo : validate_options env opts realm = .ok fj)
    (hpop : env.remoteInfo = some info)
    (hold : env.idrangeShow (pyUpper realm ++ "_id_range") = some o)
    (hsid : o.ipanttrusteddomainsid ≠ info.sid) :
    (trust_add_execute env opts realm).2 = [] ∧
    ∃ e, (trust_add_execute env opts realm).1 = .error e ∧
      e.isValidationError = true := by
  cases hbs : (pyTruthyInt opts.base_id || pyTruthyInt opts.range_size) with
  | true =>
    refine ⟨?_, .idRangeExists, ?_, rfl⟩ <;>
      simp [trust_add_execute, validate_range, hvo, hpop, hold, hbs]
  | false =>
    refine ⟨?_, .sidMismatch, ?_, rfl⟩ <;>
      simp [trust_add_execute, validate_range, hvo, hpop, hold, hbs,
            bne_iff_ne, hsid]

/-- Claim C3 (witness): the mismatch scenario for ad.example.com evaluated
through the theorem. -/
theorem c3_sid_mismatch_no_mutation_witness :
    (trust_add_execute c3Env baseOpts "ad.example.com").2 = [] ∧
    ∃ e, (trust_add_execute c3Env baseOpts "ad.example.com").1 = .error e ∧
      e.isValidationError = true :=
  c3_sid_mismatch_no_mutation c3Env baseOpts "ad.example.com" false c3Old
    baseRemote rfl rfl rfl (by decide)

/-- When the stable-hash capability is present or an explicit base id was
given, the missing-base-id guard of validate_options cannot fire. -/
theorem murmur_guard_false (env : TrustAddEnv) (opts : TrustAddOptions)
    (h : env.murmurInstalled = true ∨ opts.base_id.isSome = true) :
    (!env.murmurInstalled && opts.base_id.isNone) = false := by
  rcases h with h | h
  · simp [h]
  · cases hb : opts.base_id <;> simp [hb] at h ⊢

/-- Claim C4 (counterexample): with the join bindings available but the own
domain not yet provisioned, pysss_murmur missing and no base id given,
validate_options fails with the missing-base-id validation error, not with
the not-configured setup failure that the claimed check order (capability
available AND configured first) would produce. -/
theorem c4_precondition_order_counterexample :
    validate_options c4Env baseOpts "ad.example.com" = .error .missingBaseId ∧
    c4Env.trustConfigured = false ∧
    TrustErr.missingBaseId ≠ TrustErr.notFoundNotConfigured :=
  ⟨rfl, rfl, by decide⟩

/-- Claim C4 (amended): the preconditions are checked in this order, each a
distinct failure: (1) join bindings available, (2) explicit base id
mandatory when the stable-hash capability is absent, (3) trust type present
and exactly ad, (4) own-domain trust identity configured, (5) for admin
credentials in user at REALM form a case-insensitive realm match, and a
password required whenever admin credentials are supplied. -/
theorem c4_precondition_order_amended
    (env : TrustAddEnv) (opts : TrustAddOptions) (realm : String) :
    (env.bindingsInstalled = false →
      validate_options env opts realm = .error .notFoundSamba) ∧
    (env.bindingsInstalled = true → env.murmurInstalled = false →
      opts.base_id = none →
      validate_options env opts realm = .error .missingBaseId) ∧
    (env.bindingsInstalled = true →
      (env.murmurInstalled = true ∨ opts.base_id.isSome = true) →
      opts.trust_type = none →
      validate_options env opts realm = .error .trustTypeRequired) ∧
    (∀ t, env.bindingsInstalled = true →
      (env.murmurInstalled = true ∨ opts.base_id.isSome = true) →
      opts.trust_type = some t → t ≠ "ad" →
      validate_options env opts realm = .error .trustTypeUnsupported) ∧
    (env.bindingsInstalled = true →
      (env.murmurInstalled = true ∨ opts.base_id.isSome = true) →
      opts.trust_type = some "ad" → env.trustConfigured = false →
      validate_options env opts realm = .error .notFoundNotConfigured) ∧
    (env.bindingsInstalled = true →
      (env.murmurInstalled = true ∨ opts.base_id.isSome = true) →
      opts.trust_type = some "ad" → env.trustConfigured = true →
      pyTruthyStr opts.realm_admin = true →
      (pySplit (opts.realm_admin.getD "") '@').length > 1 →
      pyLower realm ≠ pyLower ((pySplit (opts.realm_admin.getD "") '@').getLastD "") →
      validate_options env opts realm = .error .realmMismatch) ∧
    (env.bindingsInstalled = true →
      (env.murmurInstalled = true ∨ opts.base_id.isSome = true) →
      opts.trust_type = some "ad" → env.trustConfigured = true →
      pyTruthyStr opts.realm_admin = true →
      ¬((pySplit (opts.realm_admin.getD "") '@').length > 1 ∧
        pyLower realm ≠ pyLower ((pySplit (opts.realm_admin.getD "") '@').getLastD "")) →
      pyTruthyStr opts.realm_passwd = false →
      validate_options env opts realm = .error .passwordRequired) ∧
    (env.bindingsInstalled = true →
      (env.murmurInstalled = true ∨ opts.base_id.isSome = true) →
      opts.trust_type = some "ad" → env.trustConfigured = true →
      pyTruthyStr opts.realm_admin = true →
      ¬((pySplit (opts.realm_admin.getD "") '@').length > 1 ∧
        pyLower realm ≠ pyLower ((pySplit (opts.realm_admin.getD "") '@').getLastD "")) →
      pyTruthyStr opts.realm_passwd = true →
      validate_options env opts realm = .ok true) ∧
    (env.bindingsInstalled = true →
      (env.murmurInstalled = true ∨ opts.base_id.isSome = true) →
      opts.trust_type = some "ad" → env.trustConfigured = true →
      pyTruthyStr opts.realm_admin = false →
      validate_options env opts realm = .ok false) := by
  refine ⟨?_, ?_, ?_, ?_, ?_, ?_, ?_, ?_, ?_⟩
  · intro h1
    simp [validate_options, h1]
  · intro h1 h2 h3
    simp [validate_options, h1, h2, h3]
  · intro h1 h2 h3
    have hguard := murmur_guard_false env opts h2
    simp [validate_options, h1, hguard, h3]
  · intro t h1 h2 h3 h4
    have hguard := murmur_guard_false env opts h2
    simp [validate_options, h1, hguard, h3, bne_iff_ne, h4]
  · intro h1 h2 h3 h4
    have hguard := murmur_guard_false env opts h2
    simp [validate_options, h1, hguard, h3, h4]
  · intro h1 h2 h3 h4 h5 h6 h7
    have hguard := murmur_guard_false env opts h2
    simp only [List.getLastD_eq_getLast?] at h7
    simp [validate_options, h1, hguard, h3, h4, h5, h6, bne_iff_ne]
    intro heq
    exact absurd heq h7
  · intro h1 h2 h3 h4 h5 h6 h7
    have hguard := murmur_guard_false env opts h2
    simp only [List.getLastD_eq_getLast?] at h6
    by_cases hlen : (pySplit (opts.realm_admin.getD "") '@').length > 1
    · have heq : pyLower realm =
          pyLower ((pySplit (opts.realm_admin.getD "") '@').getLast?.getD "") := by
        by_contra hne
        exact h6 ⟨hlen, hne⟩
      simp [validate_options, h1, hguard, h3, h4, h5, hlen, heq, h7]
    · simp [validate_options, h1, hguard, h3, h4, h5, hlen, h7]
  · intro h1 h2 h3 h4 h5 h6 h7
    have hguard := murmur_guard_false env opts h2
    simp only [List.getLastD_eq_getLast?] at h6
    by_cases hlen : (pySplit (opts.realm_admin.getD "") '@').length > 1
    · have heq : pyLower realm =
          pyLower ((pySplit (opts.realm_admin.getD "") '@').getLast?.getD "") := by
        by_contra hne
        exact h6 ⟨hlen, hne⟩
      simp [validate_options, h1, hguard, h3, h4, h5, hlen, heq, h7]
    · simp [validate_options, h1, hguard, h3, h4, h5, hlen, h7]
  · intro h1 h2 h3 h4 h5
    have hguard := murmur_guard_false env opts h2
    simp [validate_options, h1, hguard, h3, h4, h5]

/-- Claim C4 (witness for the amended theorem): the amended order evaluated
at the counterexample environment, where check (2) fires before the
configured check (4). -/
theorem c4_precondition_order_amended_witness :
    validate_options c4Env baseOpts "ad.example.com" = .error .missingBaseId :=
  (c4_precondition_order_amended c4Env baseOpts "ad.example.com").2.1 rfl rfl rfl

/-- A missing optional integer is falsy. -/
theorem pyTruthyInt_none : pyTruthyInt none = false := rfl

/-- Claim C5: the hashing-based base-id derivation is deterministic: two
runs (even under different environments and remaining options) on the same
domain SID produce the same base id, namely
DEFAULT_RANGE_SIZE + (murmurhash3(S) mod 10000) * DEFAULT_RANGE_SIZE. -/
theorem c5_hash_base_id_deterministic
    (env1 env2 : TrustAddEnv) (opts1 opts2 : TrustAddOptions)
    (rn1 rn2 rl1 rl2 s : String)
    (hm1 : env1.murmurInstalled = true) (hm2 : env2.murmurInstalled = true)
    (ht1 : opts1.range_type = some "ipa-ad-trust")
    (ht2 : opts2.range_type = some "ipa-ad-trust")
    (hb1 : pyTruthyInt opts1.base_id = false)
    (hb2 : pyTruthyInt opts2.base_id = false) :
    ∃ p1 p2,
      add_range env1 opts1 rn1 s rl1 = .ok p1 ∧
      add_range env2 opts2 rn2 s rl2 = .ok p2 ∧
      p1.ipabaseid = p2.ipabaseid ∧
      p1.ipabaseid = DEFAULT_RANGE_SIZE +
        Int.ofNat (murmurhash3 s MURMUR_SEED % 10000) * DEFAULT_RANGE_SIZE := by
  have h1 : add_range env1 opts1 rn1 s rl1 = .ok
      { ipabaseid := DEFAULT_RANGE_SIZE +
          Int.ofNat (murmurhash3 s MURMUR_SEED % 10000) * DEFAULT_RANGE_SIZE,
        ipaidrangesize :=
          if pyTruthyInt opts1.range_size then opts1.range_size.getD 0
          else DEFAULT_RANGE_SIZE,
        ipabaserid := 0, iparangetype := "ipa-ad-trust",
        ipanttrusteddomainsid := s } := by
    by_cases hs : pyTruthyInt opts1.range_size = true <;>
      simp [add_range, sfu_discovery, ht1, hb1, hm1, hs, pyTruthyStr, pyTruthyInt_none]
  have h2 : add_range env2 opts2 rn2 s rl2 = .ok
      { ipabaseid := DEFAULT_RANGE_SIZE +
          Int.ofNat (murmurhash3 s MURMUR_SEED % 10000) * DEFAULT_RANGE_SIZE,
        ipaidrangesize :=
          if pyTruthyInt opts2.range_size then opts2.range_size.getD 0
          else DEFAULT_RANGE_SIZE,
        ipabaserid := 0, iparangetype := "ipa-ad-trust",
        ipanttrusteddomainsid := s } := by
    by_cases hs : pyTruthyInt opts2.range_size = true <;>
      simp [add_range, sfu_discovery, ht2, hb2, hm2, hs, pyTruthyStr, pyTruthyInt_none]
  exact ⟨_, _, h1, h2, rfl, rfl⟩

/-- Claim C5 (witness): the derivation evaluated twice on the same SID under
two different environments. -/
theorem c5_hash_base_id_deterministic_witness :
    ∃ p1 p2,
      add_range baseEnv c5Opts "AD.EXAMPLE.COM_id_range" baseRemote.sid
        "ad.example.com" = .ok p1 ∧
      add_range c1Env c5Opts "OTHER_id_range" baseRemote.sid "other.test" =
        .ok p2 ∧
      p1.ipabaseid = p2.ipabaseid ∧
      p1.ipabaseid = DEFAULT_RANGE_SIZE +
        Int.ofNat (murmurhash3 baseRemote.sid MURMUR_SEED % 10000) *
          DEFAULT_RANGE_SIZE :=
  c5_hash_base_id_deterministic baseEnv c1Env c5Opts c5Opts
    "AD.EXAMPLE.COM_id_range" "OTHER_id_range" "ad.example.com" "other.test"
    baseRemote.sid rfl rfl rfl rfl rfl rfl

/-- Claim C6 (code bug evaluation): a trust stored only under the second
probed sub-container (cn=ipa) is found by the probe loop, yet
trust_show.execute and trust_del still raise NotFound, because the final
check `if error or not result` also fires when an earlier container probe
recorded a NotFound. -/
theorem c6_show_second_container_bug :
    c6Containers "ipa" "ad.example.com" = some c6Entry ∧
    "ipa" ∈ trust_types ∧
    trust_show_execute c6Containers "ad.example.com" =
      .error (.notFoundEntry "ad.example.com") ∧
    trust_del_pre_callback c6Containers "ad.example.com" =
      .error (.notFoundEntry "ad.example.com") :=
  ⟨rfl, by decide, rfl, rfl⟩

/-- Every error produced by one blacklist-attribute pass is an invalid-SID
error scoped to that attribute, naming a value of the list that fails the
validator. -/
theorem check_blacklist_attr_error_inv (valid : String → Bool) (attr : String)
    (vs : Option (List String)) (e : TrustErr)
    (h : check_blacklist_attr valid attr vs = .error e) :
    ∃ w, e = .invalidSid attr w ∧ valid w = false ∧ w ∈ vs.getD [] := by
  cases vs with
  | none => simp [check_blacklist_attr] at h
  | some l =>
    by_cases hemp : l.isEmpty
    · simp [check_blacklist_attr, hemp] at h
    · cases hf : l.find? (fun v => !valid v) with
      | none => simp [check_blacklist_attr, hemp, hf] at h
      | some w =>
        refine ⟨w, ?_, ?_, ?_⟩
        · simp [check_blacklist_attr, hemp, hf] at h
          exact h.symm
        · have := List.find?_some hf
          simpa using this
        · exact List.mem_of_find?_eq_some hf

/-- A blacklist-attribute pass over a list holding an invalid SID cannot
succeed. -/
theorem check_blacklist_attr_ne_ok (valid : String → Bool) (attr : String)
    (vs : Option (List String)) (v : String)
    (hv : v ∈ vs.getD []) (hinv : valid v = false) :
    ∃ e, check_blacklist_attr valid attr vs = .error e := by
  cases vs with
  | none => simp at hv
  | some l =>
    have hemp : l.isEmpty = false := by
      cases l with
      | nil => simp at hv
      | cons a as => rfl
    have hfind : (l.find? (fun v => !valid v)).isSome := by
      rw [List.find?_isSome]
      exact ⟨v, by simpa using hv, by simp [hinv]⟩
    cases hf : l.find? (fun v => !valid v) with
    | none => rw [hf] at hfind; simp at hfind
    | some w => exact ⟨.invalidSid attr w, by simp [check_blacklist_attr, hemp, hf]⟩

/-- Claim C7: when the SID-validation capability is present and the trust
exists, a modify whose incoming or outgoing blacklist holds a structurally
invalid SID is rejected with a validation error scoped to the offending
attribute, before any write (empty effect trace); when the capability is
absent, no blacklist validation occurs. -/
theorem c7_blacklist_validation (env : TrustModEnv) (realm : String)
    (ea : BlacklistAttrs) :
    (env.bindingsInstalled = false →
      validate_sid_blacklists env.bindingsInstalled env.isSidValid ea = .ok ()) ∧
    (∀ ent, env.bindingsInstalled = true →
      trust_show_execute env.containers realm = .ok ent →
      ((∃ v ∈ ea.ipantsidblacklistincoming.getD [], env.isSidValid v = false) ∨
       (∃ v ∈ ea.ipantsidblacklistoutgoing.getD [], env.isSidValid v = false)) →
      (trust_mod_execute env realm ea).2 = [] ∧
      ∃ a w, (trust_mod_execute env realm ea).1 = .error (.invalidSid a w) ∧
        env.isSidValid w = false ∧
        ((a = "ipantsidblacklistincoming" ∧
            w ∈ ea.ipantsidblacklistincoming.getD []) ∨
         (a = "ipantsidblacklistoutgoing" ∧
            w ∈ ea.ipantsidblacklistoutgoing.getD []))) := by
  constructor
  · intro h
    simp [validate_sid_blacklists, h]
  · intro ent hb hshow hex
    have hval : ∃ e, validate_sid_blacklists env.bindingsInstalled
        env.isSidValid ea = .error e ∧
        ∃ a w, e = .invalidSid a w ∧ env.isSidValid w = false ∧
          ((a = "ipantsidblacklistincoming" ∧
              w ∈ ea.ipantsidblacklistincoming.getD []) ∨
           (a = "ipantsidblacklistoutgoing" ∧
              w ∈ ea.ipantsidblacklistoutgoing.getD [])) := by
      cases hin : check_blacklist_attr env.isSidValid
          "ipantsidblacklistincoming" ea.ipantsidblacklistincoming with
      | error e =>
        obtain ⟨w, he, hwf, hwm⟩ := check_blacklist_attr_error_inv _ _ _ _ hin
        exact ⟨e, by simp [validate_sid_blacklists, hb, hin],
               "ipantsidblacklistincoming", w, he, hwf, Or.inl ⟨rfl, hwm⟩⟩
      | ok u =>
        rcases hex with hex | hex
        · obtain ⟨v, hvm, hvf⟩ := hex
          obtain ⟨e, he⟩ := check_blacklist_attr_ne_ok env.isSidValid
            "ipantsidblacklistincoming" ea.ipantsidblacklistincoming v hvm hvf
          rw [hin] at he
          exact absurd he (by simp)
        · obtain ⟨v, hvm, hvf⟩ := hex
          obtain ⟨e, he⟩ := check_blacklist_attr_ne_ok env.isSidValid
            "ipantsidblacklistoutgoing" ea.ipantsidblacklistoutgoing v hvm hvf
          obtain ⟨w, hew, hwf, hwm⟩ := check_blacklist_attr_error_inv _ _ _ _ he
          refine ⟨e, ?_, "ipantsidblacklistoutgoing", w, hew, hwf,
                  Or.inr ⟨rfl, hwm⟩⟩
          simp [validate_sid_blacklists, hb, hin, he]
    obtain ⟨e, he, a, w, hew, hwf, hwm⟩ := hval
    subst hew
    constructor
    · simp [trust_mod_execute, hshow, he]
    · exact ⟨a, w, by simp [trust_mod_execute, hshow, he], hwf, hwm⟩

/-- Claim C7 (witness): a malformed incoming blacklist entry rejected with
an attribute-scoped error and an empty effect trace. -/
theorem c7_blacklist_validation_witness :
    (trust_mod_execute c7Env "ad.example.com" c7Attrs).2 = [] ∧
    ∃ a w, (trust_mod_execute c7Env "ad.example.com" c7Attrs).1 =
        .error (.invalidSid a w) ∧
      c7Env.isSidValid w = false ∧
      ((a = "ipantsidblacklistincoming" ∧
          w ∈ c7Attrs.ipantsidblacklistincoming.getD []) ∨
       (a = "ipantsidblacklistoutgoing" ∧
          w ∈ c7Attrs.ipantsidblacklistoutgoing.getD [])) :=
  (c7_blacklist_validation c7Env "ad.example.com" c7Attrs).2 baseEntry rfl rfl
    (Or.inl ⟨"not-a-sid", by decide, by decide⟩)

/-- Claim C8: a half-credential join (no admin credentials supplied, so
validate_options yields full_join=false, and a trust secret present)
produces a result whose verified field is false and whose value is the
foreign domain's DNS name, performing the half join only. -/
theorem c8_half_join_unverified
    (env : TrustAddEnv) (opts : TrustAddOptions) (realm : String)
    (info : RemoteInfo) (fj : Bool)
    (hvo : validate_options env opts realm = .ok fj)
    (hadmin : pyTruthyStr opts.realm_admin = false)
    (hsec : opts.trust_secret.isSome = true) :
    ∃ r, (execute_ad env opts fj realm info).1 = .ok r ∧
      r.verified = false ∧ r.value = info.dns_domain ∧
      (execute_ad env opts fj realm info).2 = [Effect.joinHalf realm] := by
  have hfj : fj = false := by
    unfold validate_options at hvo
    repeat' split at hvo
    all_goals simp_all
  subst hfj
  obtain ⟨sec, hsec2⟩ := Option.isSome_iff_exists.mp hsec
  cases hshow : trust_show_execute env.trustShowContainers realm with
  | ok e =>
    have hx : execute_ad env opts false realm info =
        (.ok { value := info.dns_domain, verified := false,
               summary := "Re-established trust to domain " ++ info.dns_domain },
         [Effect.joinHalf realm]) := by
      simp [execute_ad, hshow, hsec2, join_ad_ipa_half]
    exact ⟨_, by rw [hx], rfl, rfl, by rw [hx]⟩
  | error e =>
    have hx : execute_ad env opts false realm info =
        (.ok { value := info.dns_domain, verified := false,
               summary := "Added Active Directory trust for realm " ++
                 info.dns_domain },
         [Effect.joinHalf realm]) := by
      simp [execute_ad, hshow, hsec2, join_ad_ipa_half]
    exact ⟨_, by rw [hx], rfl, rfl, by rw [hx]⟩

/-- Claim C8 (witness): the secret-only scenario for ad.example.com. -/
theorem c8_half_join_unverified_witness :
    ∃ r, (execute_ad baseEnv baseOpts false "ad.example.com" baseRemote).1 =
        .ok r ∧
      r.verified = false ∧ r.value = baseRemote.dns_domain ∧
      (execute_ad baseEnv baseOpts false "ad.example.com" baseRemote).2 =
        [Effect.joinHalf "ad.example.com"] :=
  c8_half_join_unverified baseEnv baseOpts "ad.example.com" baseRemote false
    rfl rfl rfl

/-- Claim C9: trust_resolve returns an empty result when the resolution
capability is absent, every returned entry corresponds to a resolvable SID
(unresolvable ones are omitted rather than failing the batch), and every
resolvable input SID is returned. -/
theorem c9_resolve_best_effort (env : ResolveEnv) (sids : List String) :
    (env.nssIdmapInstalled = false → trust_resolve_execute env sids = []) ∧
    (∀ e ∈ trust_resolve_execute env sids,
      (env.getnamebysid e.sid).isSome = true) ∧
    (env.nssIdmapInstalled = true → ∀ s n t, s ∈ sids →
      env.getnamebysid s = some (n, t) →
      ResolveEntry.mk s n (idmap_type_string t) ∈
        trust_resolve_execute env sids) := by
  refine ⟨?_, ?_, ?_⟩
  · intro h
    simp [trust_resolve_execute, h]
  · intro e he
    cases hcap : env.nssIdmapInstalled with
    | false => simp [trust_resolve_execute, hcap] at he
    | true =>
      simp only [trust_resolve_execute, hcap, Bool.not_true, Bool.false_eq_true,
        if_false, List.mem_filterMap] at he
      obtain ⟨s, _, hmap⟩ := he
      cases hg : env.getnamebysid s with
      | none => rw [hg] at hmap; simp at hmap
      | some nt =>
        obtain ⟨n, t⟩ := nt
        rw [hg] at hmap
        simp only [Option.some.injEq] at hmap
        rw [← hmap]
        simp [hg]
  · intro hcap s n t hs hg
    simp only [trust_resolve_execute, hcap, Bool.not_true, Bool.false_eq_true,
      if_false, List.mem_filterMap]
    exact ⟨s, hs, by rw [hg]⟩

/-- Claim C9 (witness): one resolvable and one unresolvable SID. -/
theorem c9_resolve_best_effort_witness :
    (∀ e ∈ trust_resolve_execute c9Env ["S-1-5-21-1-2-3-500", "S-1-0-0"],
      (c9Env.getnamebysid e.sid).isSome = true) ∧
    ResolveEntry.mk "S-1-5-21-1-2-3-500" "Administrator" (idmap_type_string 1) ∈
      trust_resolve_execute c9Env ["S-1-5-21-1-2-3-500", "S-1-0-0"] :=
  ⟨(c9_resolve_best_effort c9Env ["S-1-5-21-1-2-3-500", "S-1-0-0"]).2.1,
   (c9_resolve_best_effort c9Env ["S-1-5-21-1-2-3-500", "S-1-0-0"]).2.2 rfl
     "S-1-5-21-1-2-3-500" "Administrator" 1 (by decide) rfl⟩

/-- Claim C10: an explicitly supplied base_id of 0 or range_size of 0 is
treated as absent by the truthiness tests: it does not trigger the
range-parameters-with-existing-range rejection in validate_range, and in
add_range a zero base_id falls through to the murmur-hash derivation while
a zero range_size falls through to the 200000 default. -/
theorem c10_zero_options_falsy
    (env : TrustAddEnv) (opts : TrustAddOptions) (realm : String)
    (o : OldRange) (info : RemoteInfo) :
    (opts.base_id = some 0 → opts.range_size = some 0 →
      pyTruthyStr opts.range_type = false →
      env.idrangeShow (pyUpper realm ++ "_id_range") = some o →
      env.remoteInfo = some info →
      o.ipanttrusteddomainsid = info.sid →
      validate_range env opts realm =
        .ok (some o, pyUpper realm ++ "_id_range", info.sid)) ∧
    (∀ rn ds rl, opts.base_id = some 0 → opts.range_size = some 0 →
      opts.range_type = none → env.validatorConfigured = true →
      discoverInfo env.discover = none → env.murmurInstalled = true →
      add_range env opts rn ds rl = .ok
        { ipabaseid := DEFAULT_RANGE_SIZE +
            Int.ofNat (murmurhash3 ds MURMUR_SEED % 10000) * DEFAULT_RANGE_SIZE,
          ipaidrangesize := DEFAULT_RANGE_SIZE, ipabaserid := 0,
          iparangetype := "ipa-ad-trust", ipanttrusteddomainsid := ds }) := by
  constructor
  · intro hb hs hrt hold hpop hsid
    simp [validate_range, hold, hpop, hb, hs, hrt, pyTruthyInt, hsid]
  · intro rn ds rl hb hs hrt hval hdisc hm
    simp [add_range, sfu_discovery, hrt, hval, hdisc, hb, hs, hm,
          pyTruthyInt, pyTruthyStr]

/-- Claim C10 (witness): explicit zeros evaluated against an existing
matching range and against the defaults path of add_range. -/
theorem c10_zero_options_falsy_witness :
    validate_range c10Env c10Opts "ad.example.com" =
      .ok (some c10Old, pyUpper "ad.example.com" ++ "_id_range",
           baseRemote.sid) ∧
    add_range c10Env c10Opts "AD.EXAMPLE.COM_id_range" baseRemote.sid
      "ad.example.com" = .ok
      { ipabaseid := DEFAULT_RANGE_SIZE +
          Int.ofNat (murmurhash3 baseRemote.sid MURMUR_SEED % 10000) *
            DEFAULT_RANGE_SIZE,
        ipaidrangesize := DEFAULT_RANGE_SIZE, ipabaserid := 0,
        iparangetype := "ipa-ad-trust",
        ipanttrusteddomainsid := baseRemote.sid } :=
  ⟨(c10_zero_options_falsy c10Env c10Opts "ad.example.com" c10Old
      baseRemote).1 rfl rfl rfl rfl rfl rfl,
   (c10_zero_options_falsy c10Env c10Opts "ad.example.com" c10Old
      baseRemote).2 "AD.EXAMPLE.COM_id_range" baseRemote.sid "ad.example.com"
      rfl rfl rfl rfl rfl rfl⟩
